import Mathlib

/- Shallow embedding of the geospatial filtering, statistics and pattern
   engine of the road-commons-observatory repository (source files
   src/road.old.js and src/App.js).  Epoch-millisecond timestamps are Int,
   coordinates and derived averages are Rat; ideal real arithmetic (Real)
   models the Haversine distance.  Option models JS null/undefined, and a
   none in a numeric result position models NaN. -/

/-- Observation record (road.old.js ObservationDataService / spec data model).
    JS strings stay strings; response_time is absent exactly when the JS field
    is undefined. -/
structure Observation where
  id : String
  type : String
  lat : ℚ
  lng : ℚ
  timestamp : ℤ
  status : String
  response_time : Option ℤ
deriving DecidableEq, Repr

/-- JS Math.round: round half towards positive infinity. -/
def jsRound (q : ℚ) : ℤ := ⌊q + 1/2⌋

/-- JS Number.prototype.toFixed(1) on a non-negative finite number, kept as the
    rational value the produced string denotes. -/
def toFixed1 (q : ℚ) : ℚ := (⌊q * 10 + 1/2⌋ : ℚ) / 10

/-- Keys of the TIME_WINDOWS object in road.old.js. -/
inductive TimeWindowKey
  | h24
  | d7
  | d30
  | persistent
deriving DecidableEq, Repr

/-- One entry of TIME_WINDOWS; ms = none models the JS Infinity span. -/
structure TimeWindowConfig where
  ms : Option ℤ
  label : String
deriving DecidableEq, Repr

/-- TIME_WINDOWS from road.old.js. -/
def TIME_WINDOWS : TimeWindowKey → TimeWindowConfig
  | .h24 => ⟨some (24 * 60 * 60 * 1000), "24h"⟩
  | .d7 => ⟨some (7 * 24 * 60 * 60 * 1000), "7d"⟩
  | .d30 => ⟨some (30 * 24 * 60 * 60 * 1000), "30d"⟩
  | .persistent => ⟨none, "All"⟩

/-- The filteredData useMemo of road.old.js: lens filter then time filter. -/
def filteredData (observations : List Observation) (lens : String)
    (timeFilter : TimeWindowKey) (now : ℤ) : List Observation :=
  let filtered := observations
  let filtered :=
    if lens ≠ "all" then filtered.filter (fun o => o.type == lens) else filtered
  match (TIME_WINDOWS timeFilter).ms with
  | some ms => filtered.filter (fun o => decide (now - o.timestamp < ms))
  | none => filtered

/-- MapUtils.getClusterSize from road.old.js. -/
def getClusterSize (count : ℤ) : String :=
  if count > 50 then "large"
  else if count > 10 then "medium"
  else "small"

/-- Pixel presets of MapUtils.getClusterDimensions. -/
structure ClusterDimensions where
  width : ℕ
  height : ℕ
  fontSize : String
deriving DecidableEq, Repr

/-- MapUtils.getClusterDimensions from road.old.js (dictionary lookup with
    small as the default). -/
def getClusterDimensions (size : String) : ClusterDimensions :=
  if size = "large" then ⟨50, 50, "16px"⟩
  else if size = "medium" then ⟨40, 40, "14px"⟩
  else ⟨32, 32, "12px"⟩

/-- Result record of StatsUtils.calculateObservationStats (road.old.js).
    reviewRate holds the rational value the JS toFixed(1) string denotes. -/
structure ObservationStats where
  total : ℕ
  byTypeViolation : ℕ
  byTypeRisk : ℕ
  byTypeInfrastructure : ℕ
  avgResponseTime : ℤ
  reviewRate : ℚ
deriving DecidableEq, Repr

/-- StatsUtils.calculateObservationStats from road.old.js. -/
def calculateObservationStats (observations : List Observation) : ObservationStats :=
  let total := observations.length
  if total = 0 then ⟨0, 0, 0, 0, 0, 0⟩
  else
    let byViolation := (observations.filter (fun o => o.type == "violation")).length
    let byRisk := (observations.filter (fun o => o.type == "risk")).length
    let byInfrastructure :=
      (observations.filter (fun o => o.type == "infrastructure")).length
    let withResponseTime := observations.filter (fun o =>
      match o.response_time with
      | none => false
      | some r => r != 0 && decide (0 < r))
    let avgResponseTime :=
      if withResponseTime.length > 0 then
        jsRound ((withResponseTime.foldl
          (fun acc o => acc + ((o.response_time.getD 0 : ℤ) : ℚ)) 0) /
            withResponseTime.length)
      else 0
    let reviewed := (observations.filter (fun o => o.status != "pending")).length
    let reviewRate :=
      if total > 0 then toFixed1 (((reviewed : ℚ) / total) * 100) else 0
    ⟨total, byViolation, byRisk, byInfrastructure, avgResponseTime, reviewRate⟩

/-- Result record of the calculateStats closure in src/App.js; none in
    avgResponseTime or reviewRate models the NaN this code can produce. -/
structure AppStats where
  total : ℕ
  byTypeViolation : ℕ
  byTypeRisk : ℕ
  byTypeInfrastructure : ℕ
  avgResponseTime : Option ℤ
  reviewRate : Option ℚ
deriving DecidableEq, Repr

/-- The calculateStats closure of src/App.js, with its captured filteredData
    made an argument.  It filters on truthiness of response_time only, and
    divides with no emptiness or zero-total guard: a zero denominator is
    0 / 0 = NaN in JS, modelled by none. -/
def calculateStats (filtered : List Observation) : AppStats :=
  let total := filtered.length
  let byViolation := (filtered.filter (fun o => o.type == "violation")).length
  let byRisk := (filtered.filter (fun o => o.type == "risk")).length
  let byInfrastructure :=
    (filtered.filter (fun o => o.type == "infrastructure")).length
  let withResponseTime := filtered.filter (fun o =>
    match o.response_time with
    | none => false
    | some r => r != 0)
  let avgResponseTime : Option ℚ :=
    if withResponseTime.length = 0 then none
    else some ((withResponseTime.foldl
      (fun acc o => acc + ((o.response_time.getD 0 : ℤ) : ℚ)) 0) /
        withResponseTime.length)
  let reviewed := (filtered.filter (fun o => o.status != "pending")).length
  let reviewRate : Option ℚ :=
    if total = 0 then none
    else some (toFixed1 (((reviewed : ℚ) / total) * 100))
  ⟨total, byViolation, byRisk, byInfrastructure,
    avgResponseTime.map jsRound, reviewRate⟩

/-- The stats useMemo of road.old.js: use the viewport-visible set when it is
    non-empty, otherwise fall back to the whole filtered set. -/
def statsMemo (visibleObservations filtered : List Observation) : ObservationStats :=
  let dataToUse :=
    if visibleObservations.length > 0 then visibleObservations else filtered
  calculateObservationStats dataToUse

/-- Grid-cell key used by calculateCityWideStats; the source builds the string
    Math.floor(lat*100) ++ underscore ++ Math.floor(lng*100), an injective
    image of this integer pair. -/
def zoneKey (o : Observation) : ℤ × ℤ := (⌊o.lat * 100⌋, ⌊o.lng * 100⌋)

/-- Result record of PatternUtils.calculateCityWideStats. -/
structure CityWideStats where
  total : ℕ
  affectedZones : ℕ
  trend : String
  recentCount : ℕ
deriving DecidableEq, Repr

/-- PatternUtils.calculateCityWideStats from road.old.js, with the implicit
    Date.now() made an argument.  The source also computes a recentObs list it
    never uses; that dead binding is omitted.  The float literals 1.2 and 0.8
    are the exact rationals 6/5 and 4/5. -/
def calculateCityWideStats (observations : List Observation)
    (timeWindowMs : ℤ) (now : ℤ) : CityWideStats :=
  let uniqueZones := ((observations.map zoneKey).dedup).length
  let midpoint : ℚ := (now : ℚ) - (timeWindowMs : ℚ) / 2
  let recentCount :=
    (observations.filter (fun o => decide (midpoint < (o.timestamp : ℚ)))).length
  let olderCount :=
    (observations.filter (fun o => decide ((o.timestamp : ℚ) ≤ midpoint))).length
  let trend :=
    if (recentCount : ℚ) > (olderCount : ℚ) * (6/5) then "increasing"
    else if (recentCount : ℚ) < (olderCount : ℚ) * (4/5) then "declining"
    else "stable"
  ⟨observations.length, uniqueZones, trend, recentCount⟩

/-- PatternUtils.getMatchingObservations from road.old.js. -/
def getMatchingObservations (observations : List Observation)
    (referenceObservation : Observation) : List Observation :=
  observations.filter (fun obs => obs.type == referenceObservation.type)

/-- The data computation of handleCityWidePattern (road.old.js): match on the
    reference type over the filtered set, then city-wide stats over the
    matched set. -/
def cityWide (reference : Observation) (filtered : List Observation)
    (timeWindowMs : ℤ) (now : ℤ) : List Observation × CityWideStats :=
  let matchingObs := getMatchingObservations filtered reference
  (matchingObs, calculateCityWideStats matchingObs timeWindowMs now)

/-- Result record of PatternUtils.calculateLocalStats. -/
structure LocalStats where
  count : ℕ
  timeSpanDays : ℤ
  trend : String
deriving DecidableEq, Repr

/-- PatternUtils.calculateLocalStats from road.old.js, with the implicit
    Date.now() made an argument.  The JS Array.sort with a numeric comparator
    is a stable sort, modelled by mergeSort. -/
def calculateLocalStats (observations : List Observation)
    (timeWindowMs : ℤ) (now : ℤ) : Option LocalStats :=
  if observations.length = 0 then none
  else
    let timestamps :=
      (observations.map (fun o => o.timestamp)).mergeSort (fun a b => decide (a ≤ b))
    let timeSpan := timestamps.getLast?.getD 0 - timestamps.head?.getD 0
    let timeSpanDays := ⌈(timeSpan : ℚ) / (1000 * 60 * 60 * 24)⌉
    let midpoint : ℚ := (now : ℚ) - (timeWindowMs : ℚ) / 2
    let recentCount :=
      (observations.filter (fun o => decide (midpoint < (o.timestamp : ℚ)))).length
    let olderCount :=
      (observations.filter (fun o => decide ((o.timestamp : ℚ) ≤ midpoint))).length
    let trend :=
      if (recentCount : ℚ) > (olderCount : ℚ) * (6/5) then "increasing"
      else if (recentCount : ℚ) < (olderCount : ℚ) * (4/5) then "declining"
      else "stable"
    some ⟨observations.length, timeSpanDays, trend⟩

/-- MapUtils.getBoundsForPoints from road.old.js: null for an empty list,
    otherwise ((minLat, minLng), (maxLat, maxLng)). -/
def getBoundsForPoints (points : List Observation) : Option ((ℚ × ℚ) × (ℚ × ℚ)) :=
  match points with
  | [] => none
  | p :: _ =>
    let minLat := points.foldl (fun m q => if q.lat < m then q.lat else m) p.lat
    let maxLat := points.foldl (fun m q => if q.lat > m then q.lat else m) p.lat
    let minLng := points.foldl (fun m q => if q.lng < m then q.lng else m) p.lng
    let maxLng := points.foldl (fun m q => if q.lng > m then q.lng else m) p.lng
    some ((minLat, minLng), (maxLat, maxLng))

/-- The savedMapState record of road.old.js: map center, zoom and the
    selection captured on entering a pattern mode. -/
structure SavedMapState where
  centerLat : ℚ
  centerLng : ℚ
  zoom : ℤ
  selectedObservation : Option Observation
deriving DecidableEq, Repr

/-- The patternData record of road.old.js (city-wide variant; the Local
    variant adds a center the claims do not touch). -/
structure PatternData where
  type : String
  observations : List Observation
  stats : CityWideStats
deriving DecidableEq, Repr

/-- The component state touched by the pattern handlers of road.old.js.
    patternMode holds the PATTERN_MODE strings none / city_wide / local; the
    Leaflet map's center and zoom are inlined as three fields. -/
structure ControllerState where
  patternMode : String
  patternData : Option PatternData
  savedMapState : Option SavedMapState
  selectedObservation : Option Observation
  expandedDetail : Bool
  mapCenterLat : ℚ
  mapCenterLng : ℚ
  mapZoom : ℤ
deriving DecidableEq, Repr

/-- handleCityWidePattern from road.old.js.  The guard returns unchanged when
    no observation is selected (the map instance is assumed present).  The
    view produced by map.fitBounds is external input, passed as the fit
    arguments; fitBounds runs only when getBoundsForPoints is non-null. -/
def handleCityWidePattern (s : ControllerState) (filtered : List Observation)
    (timeWindowMs now : ℤ) (fitCenterLat fitCenterLng : ℚ) (fitZoom : ℤ) :
    ControllerState :=
  match s.selectedObservation with
  | none => s
  | some sel =>
    let saved : SavedMapState :=
      ⟨s.mapCenterLat, s.mapCenterLng, s.mapZoom, some sel⟩
    let matchingObs := getMatchingObservations filtered sel
    let stats := calculateCityWideStats matchingObs timeWindowMs now
    let view : ℚ × ℚ × ℤ :=
      match getBoundsForPoints matchingObs with
      | some _ => (fitCenterLat, fitCenterLng, fitZoom)
      | none => (s.mapCenterLat, s.mapCenterLng, s.mapZoom)
    { patternMode := "city_wide"
      patternData := some ⟨sel.type, matchingObs, stats⟩
      savedMapState := some saved
      selectedObservation := none
      expandedDetail := false
      mapCenterLat := view.1
      mapCenterLng := view.2.1
      mapZoom := view.2.2 }

/-- handleClearPatternMode from road.old.js: a guarded no-op without a saved
    view, otherwise restore center, zoom and selection and drop the
    snapshot. -/
def handleClearPatternMode (s : ControllerState) : ControllerState :=
  match s.savedMapState with
  | none => s
  | some saved =>
    { s with
      mapCenterLat := saved.centerLat
      mapCenterLng := saved.centerLng
      mapZoom := saved.zoom
      selectedObservation := saved.selectedObservation
      patternMode := "none"
      patternData := none
      savedMapState := none }

/-- The deselect-on-filter-change useEffect of road.old.js: when a selection
    exists whose id no longer occurs in the filtered set, clear the selection
    and collapse the detail panel; otherwise leave both untouched. -/
def deselectCheck (filtered : List Observation)
    (selectedObservation : Option Observation) (expandedDetail : Bool) :
    Option Observation × Bool :=
  match selectedObservation with
  | none => (none, expandedDetail)
  | some sel =>
    match filtered.find? (fun obs => obs.id == sel.id) with
    | none => (none, false)
    | some _ => (some sel, expandedDetail)

/-- JS Math.atan2 in ideal real arithmetic: the argument of the complex
    number x + y i, with atan2 0 0 = 0 as in JS. -/
noncomputable def atan2 (y x : ℝ) : ℝ := Complex.arg ⟨x, y⟩

/-- MapUtils.getDistance from road.old.js: the Haversine distance on a sphere
    of radius 6371e3 metres, in ideal real arithmetic. -/
noncomputable def getDistance (lat1 lng1 lat2 lng2 : ℝ) : ℝ :=
  let R : ℝ := 6371000
  let phi1 := lat1 * Real.pi / 180
  let phi2 := lat2 * Real.pi / 180
  let dPhi := (lat2 - lat1) * Real.pi / 180
  let dLambda := (lng2 - lng1) * Real.pi / 180
  let a := Real.sin (dPhi / 2) * Real.sin (dPhi / 2) +
    Real.cos phi1 * Real.cos phi2 * Real.sin (dLambda / 2) * Real.sin (dLambda / 2)
  let c := 2 * atan2 (Real.sqrt a) (Real.sqrt (1 - a))
  R * c

open scoped Classical in
/-- PatternUtils.getNearbyObservations from road.old.js: keep the observations
    within radiusMeters of the given center. -/
noncomputable def getNearbyObservations (observations : List Observation)
    (centerLat centerLng radiusMeters : ℝ) : List Observation :=
  observations.filter (fun obs =>
    decide (getDistance centerLat centerLng (obs.lat : ℝ) (obs.lng : ℝ) ≤ radiusMeters))

/-- MAP_CONFIG.localPatternRadius from road.old.js, in metres. -/
def localPatternRadius : ℝ := 200

/-- The data computation of handleLocalPattern (road.old.js): restrict the
    filtered set to the reference type, keep the observations within the
    radius of the reference point, then local stats over that set. -/
noncomputable def localPattern (reference : Observation)
    (filtered : List Observation) (radiusMeters : ℝ) (timeWindowMs now : ℤ) :
    List Observation × Option LocalStats :=
  let nearbyObs := getNearbyObservations
    (filtered.filter (fun obs => obs.type == reference.type))
    (reference.lat : ℝ) (reference.lng : ℝ) radiusMeters
  (nearbyObs, calculateLocalStats nearbyObs timeWindowMs now)

/-- Sample observation used to instantiate proved properties. -/
def obsW : Observation :=
  ⟨"obs-1", "violation", 19, 72.9, 0, "pending", none⟩

/-- Ordering of window spans, with none (the Infinity span) as the top. -/
def spanLe : Option ℤ → Option ℤ → Prop
  | some a, some b => a ≤ b
  | _, none => True
  | none, some _ => False

lemma filteredData_sublist (obs : List Observation) (lens : String)
    (w : TimeWindowKey) (now : ℤ) : (filteredData obs lens w now).Sublist obs := by
  unfold filteredData
  cases hms : (TIME_WINDOWS w).ms <;> simp only [hms] <;> split <;>
    first
      | exact (List.filter_sublist _).trans (List.filter_sublist _)
      | exact List.filter_sublist _
      | exact List.Sublist.refl _

lemma mem_filteredData {obs : List Observation} {lens : String}
    {w : TimeWindowKey} {now : ℤ} {o : Observation} :
    o ∈ filteredData obs lens w now ↔
      o ∈ obs ∧ (lens = "all" ∨ o.type = lens) ∧
        (∀ s, (TIME_WINDOWS w).ms = some s → now - o.timestamp < s) := by
  unfold filteredData
  cases hms : (TIME_WINDOWS w).ms <;> simp only [hms] <;>
    by_cases hl : lens = "all" <;>
    simp [hl, List.mem_filter, and_assoc]
  intro _
  exact and_comm

lemma timeWindow_span_pos {w : TimeWindowKey} {s : ℤ}
    (h : (TIME_WINDOWS w).ms = some s) : 0 < s := by
  cases w <;> simp [TIME_WINDOWS] at h <;> omega


/-- C2: for every corpus and filter state, filteredData keeps exactly the
    observations whose type passes the lens and whose age passes the window,
    never excludes an observation with negative age (timestamp after now), and
    preserves the corpus order (the result is a sublist of the corpus). -/
theorem filteredData_keeps_exactly (obs : List Observation) (lens : String)
    (w : TimeWindowKey) (now : ℤ) :
    (∀ o, o ∈ filteredData obs lens w now ↔
        o ∈ obs ∧ (lens = "all" ∨ o.type = lens) ∧
          (∀ s, (TIME_WINDOWS w).ms = some s → now - o.timestamp < s))
    ∧ (filteredData obs lens w now).Sublist obs
    ∧ (∀ o, o ∈ obs → (lens = "all" ∨ o.type = lens) → now < o.timestamp →
        o ∈ filteredData obs lens w now) := by
  refine ⟨fun o => mem_filteredData, filteredData_sublist obs lens w now, ?_⟩
  intro o ho hl ht
  rw [mem_filteredData]
  refine ⟨ho, hl, ?_⟩
  intro s hs
  have hpos : 0 < s := timeWindow_span_pos hs
  omega

/-- Witness for C2: an observation whose timestamp lies after now (negative
    age) is kept by the 24h window. -/
theorem filteredData_keeps_exactly_witness :
    obsW ∈ filteredData [obsW] "all" TimeWindowKey.h24 (-5) :=
  (filteredData_keeps_exactly [obsW] "all" TimeWindowKey.h24 (-5)).2.2 obsW
    (by simp) (Or.inl rfl) (by decide)

/-- C7: enlarging the time window (span ordered with Infinity on top) can only
    enlarge the filtered set, for any fixed lens and now. -/
theorem filteredData_window_monotone (obs : List Observation) (lens : String)
    (w1 w2 : TimeWindowKey) (now : ℤ)
    (h : spanLe (TIME_WINDOWS w1).ms (TIME_WINDOWS w2).ms) :
    ∀ o, o ∈ filteredData obs lens w1 now → o ∈ filteredData obs lens w2 now := by
  intro o ho
  rw [mem_filteredData] at ho ⊢
  obtain ⟨h1, h2, h3⟩ := ho
  refine ⟨h1, h2, ?_⟩
  intro s2 hs2
  cases hms1 : (TIME_WINDOWS w1).ms with
  | none => rw [hms1, hs2] at h; exact absurd h (by simp [spanLe])
  | some s1 =>
    have hlt := h3 s1 hms1
    rw [hms1, hs2] at h
    simp only [spanLe] at h
    omega

/-- Witness for C7: membership under the 24h window carries over to the 7d
    window on a concrete corpus. -/
theorem filteredData_window_monotone_witness :
    obsW ∈ filteredData [obsW] "all" TimeWindowKey.d7 5 :=
  filteredData_window_monotone [obsW] "all" TimeWindowKey.h24 TimeWindowKey.d7 5
    (by simp [TIME_WINDOWS, spanLe]) obsW
    (by rw [mem_filteredData]
        refine ⟨by simp, Or.inl rfl, ?_⟩
        intro s hs
        simp [TIME_WINDOWS] at hs
        simp [obsW, ← hs])

/-- C8: getClusterSize classifies counts above 50 as large, counts in (10, 50]
    as medium and all others as small, with the fixed 50, 40 and 32 pixel
    presets per tier, and the boundary cases 51, 11 and 10 land in large,
    medium and small respectively. -/
theorem getClusterSize_spec :
    (∀ count : ℤ,
      (50 < count → getClusterSize count = "large")
      ∧ (10 < count → count ≤ 50 → getClusterSize count = "medium")
      ∧ (count ≤ 10 → getClusterSize count = "small"))
    ∧ getClusterDimensions "large" = ⟨50, 50, "16px"⟩
    ∧ getClusterDimensions "medium" = ⟨40, 40, "14px"⟩
    ∧ getClusterDimensions "small" = ⟨32, 32, "12px"⟩
    ∧ getClusterSize 51 = "large"
    ∧ getClusterSize 11 = "medium"
    ∧ getClusterSize 10 = "small" := by
  refine ⟨?_, rfl, rfl, rfl, rfl, rfl, rfl⟩
  intro count
  unfold getClusterSize
  refine ⟨fun h1 => ?_, fun h1 h2 => ?_, fun h1 => ?_⟩ <;>
    split_ifs <;> first | rfl | omega

/-- Witness for C8 at the boundary counts 51, 11 and 10. -/
theorem getClusterSize_spec_witness :
    getClusterSize 51 = "large" ∧ getClusterSize 11 = "medium" ∧
      getClusterSize 10 = "small" :=
  ⟨(getClusterSize_spec.1 51).1 (by norm_num),
   (getClusterSize_spec.1 11).2.1 (by norm_num) (by norm_num),
   (getClusterSize_spec.1 10).2.2 (by norm_num)⟩

/-- C10: the interface stats are computed over the viewport-visible set when
    it is non-empty, and silently fall back to the whole filtered set when the
    visible set is empty. -/
theorem statsMemo_fallback (visible filtered : List Observation) :
    (visible ≠ [] → statsMemo visible filtered = calculateObservationStats visible)
    ∧ (visible = [] → statsMemo visible filtered = calculateObservationStats filtered) := by
  constructor
  · intro h
    unfold statsMemo
    rw [if_pos (List.length_pos.mpr h)]
  · intro h
    subst h
    rfl

/-- Witness for C10: with an empty visible set the stats are those of the
    filtered set, and with a non-empty visible set those of the visible set. -/
theorem statsMemo_fallback_witness :
    statsMemo [] [obsW] = calculateObservationStats [obsW] ∧
      statsMemo [obsW] [] = calculateObservationStats [obsW] :=
  ⟨(statsMemo_fallback [] [obsW]).2 rfl,
   (statsMemo_fallback [obsW] []).1 (by simp)⟩

/-- C1: on the empty observation set the App.js calculateStats closure
    produces NaN (modelled none) for both avgResponseTime and reviewRate,
    while the guarded StatsUtils.calculateObservationStats of road.old.js
    returns the 0 and 0.0 the specification requires. -/
theorem calculateStats_nan_on_empty :
    (calculateStats []).avgResponseTime = none
    ∧ (calculateStats []).reviewRate = none
    ∧ (calculateObservationStats []).avgResponseTime = 0
    ∧ (calculateObservationStats []).reviewRate = 0
    ∧ (calculateObservationStats []).total = 0 :=
  ⟨rfl, rfl, rfl, rfl, rfl⟩

/-- C9: after the deselect effect runs, the selection is null or (by unique
    ids) a member of the current filtered set, and a selection the filter
    change removed is cleared together with the expanded-detail flag. -/
theorem deselectCheck_spec (corpus : List Observation) (lens : String)
    (w : TimeWindowKey) (now : ℤ) (sel : Option Observation) (expanded : Bool)
    (hids : (corpus.map Observation.id).Nodup)
    (hsel : ∀ o, sel = some o → o ∈ corpus) :
    (∀ o, (deselectCheck (filteredData corpus lens w now) sel expanded).1 = some o →
        o ∈ filteredData corpus lens w now)
    ∧ (∀ o, sel = some o → o ∉ filteredData corpus lens w now →
        deselectCheck (filteredData corpus lens w now) sel expanded = (none, false)) := by
  constructor
  · intro o hres
    cases sel with
    | none => simp [deselectCheck] at hres
    | some s =>
      have hs : s ∈ corpus := hsel s rfl
      cases hfind : (filteredData corpus lens w now).find? (fun obs => obs.id == s.id) with
      | none => simp [deselectCheck, hfind] at hres
      | some found =>
        simp [deselectCheck, hfind] at hres
        have hmem : found ∈ filteredData corpus lens w now :=
          List.mem_of_find?_eq_some hfind
        have hid : found.id = s.id := by
          simpa using List.find?_some hfind
        have hfc : found ∈ corpus :=
          (filteredData_sublist corpus lens w now).subset hmem
        have heq : found = s := List.inj_on_of_nodup_map hids hfc hs hid
        rw [← hres, ← heq]
        exact hmem
  · intro o hso hnot
    subst hso
    cases hfind : (filteredData corpus lens w now).find? (fun obs => obs.id == o.id) with
    | none => simp [deselectCheck, hfind]
    | some found =>
      exfalso
      have hmem := List.mem_of_find?_eq_some hfind
      have hid : found.id = o.id := by simpa using List.find?_some hfind
      have hfc := (filteredData_sublist corpus lens w now).subset hmem
      have ho : o ∈ corpus := hsel o rfl
      have heq : found = o := List.inj_on_of_nodup_map hids hfc ho hid
      exact hnot (heq ▸ hmem)

/-- Witness for C9: switching the lens to risk removes the selected violation
    observation, so the effect clears the selection and the detail flag. -/
theorem deselectCheck_spec_witness :
    deselectCheck (filteredData [obsW] "risk" TimeWindowKey.persistent 0)
      (some obsW) true = (none, false) :=
  (deselectCheck_spec [obsW] "risk" TimeWindowKey.persistent 0 (some obsW) true
      (by simp)
      (fun o h => by cases h; simp)).2 obsW rfl
    (by rw [mem_filteredData]; simp [obsW])

/-- C6: entering city-wide pattern mode from the idle state and immediately
    clearing restores exactly the pre-entry center, zoom and selection and
    returns the controller to the none mode with no snapshot, while clearing
    with no saved view is a strict no-op. -/
theorem clearPattern_round_trip (s : ControllerState) (filtered : List Observation)
    (timeWindowMs now : ℤ) (fitLat fitLng : ℚ) (fitZoom : ℤ) (sel : Observation)
    (_hmode : s.patternMode = "none") (_hsaved : s.savedMapState = none)
    (hsel : s.selectedObservation = some sel) :
    ((handleClearPatternMode (handleCityWidePattern s filtered timeWindowMs now
        fitLat fitLng fitZoom)).mapCenterLat = s.mapCenterLat
    ∧ (handleClearPatternMode (handleCityWidePattern s filtered timeWindowMs now
        fitLat fitLng fitZoom)).mapCenterLng = s.mapCenterLng
    ∧ (handleClearPatternMode (handleCityWidePattern s filtered timeWindowMs now
        fitLat fitLng fitZoom)).mapZoom = s.mapZoom
    ∧ (handleClearPatternMode (handleCityWidePattern s filtered timeWindowMs now
        fitLat fitLng fitZoom)).selectedObservation = s.selectedObservation
    ∧ (handleClearPatternMode (handleCityWidePattern s filtered timeWindowMs now
        fitLat fitLng fitZoom)).patternMode = "none"
    ∧ (handleClearPatternMode (handleCityWidePattern s filtered timeWindowMs now
        fitLat fitLng fitZoom)).savedMapState = none
    ∧ (handleClearPatternMode (handleCityWidePattern s filtered timeWindowMs now
        fitLat fitLng fitZoom)).patternData = none)
    ∧ (∀ t : ControllerState, t.savedMapState = none → handleClearPatternMode t = t) := by
  constructor
  · unfold handleCityWidePattern handleClearPatternMode
    rw [hsel]
    simp [hsel]
  · intro t ht
    unfold handleClearPatternMode
    rw [ht]

/-- Concrete controller state used to instantiate proved properties. -/
def ctrlW : ControllerState := ⟨"none", none, none, some obsW, true, 19, 72, 12⟩

/-- Witness for C6 on a concrete idle state with a selection. -/
theorem clearPattern_round_trip_witness :
    (handleClearPatternMode (handleCityWidePattern ctrlW [obsW] 86400000 0
        20 73 10)).selectedObservation = ctrlW.selectedObservation
    ∧ (handleClearPatternMode (handleCityWidePattern ctrlW [obsW] 86400000 0
        20 73 10)).mapCenterLat = ctrlW.mapCenterLat
    ∧ (handleClearPatternMode (handleCityWidePattern ctrlW [obsW] 86400000 0
        20 73 10)).patternMode = "none"
    ∧ handleClearPatternMode ctrlW = ctrlW := by
  have h := clearPattern_round_trip ctrlW [obsW] 86400000 0 20 73 10 obsW rfl rfl rfl
  exact ⟨h.1.2.2.2.1, h.1.1, h.1.2.2.2.2.1, h.2 ctrlW rfl⟩

/-- C3: the city-wide analyzer matches exactly the observations of the
    reference type, reports their count as total, counts distinct grid cells
    keyed by the floors of lat times 100 and lng times 100 as affectedZones,
    and classifies the trend from recentCount (matches after the window
    midpoint) and olderCount (matches at or before it): increasing when
    recentCount exceeds 1.2 times olderCount, declining when it is below 0.8
    times olderCount, stable otherwise; in particular olderCount = 0 with a
    positive recentCount is increasing. -/
theorem cityWide_spec (reference : Observation) (filtered : List Observation)
    (windowMs now : ℤ) :
    (∀ o, o ∈ (cityWide reference filtered windowMs now).1 ↔
        o ∈ filtered ∧ o.type = reference.type)
    ∧ (cityWide reference filtered windowMs now).2.total =
        (cityWide reference filtered windowMs now).1.length
    ∧ (cityWide reference filtered windowMs now).2.affectedZones =
        (((cityWide reference filtered windowMs now).1.map zoneKey).toFinset).card
    ∧ (cityWide reference filtered windowMs now).2.recentCount =
        ((cityWide reference filtered windowMs now).1.filter (fun o =>
          decide ((now : ℚ) - (windowMs : ℚ) / 2 < (o.timestamp : ℚ)))).length
    ∧ ((((cityWide reference filtered windowMs now).1.filter (fun o =>
          decide ((now : ℚ) - (windowMs : ℚ) / 2 < (o.timestamp : ℚ)))).length : ℚ) >
        ((((cityWide reference filtered windowMs now).1.filter (fun o =>
          decide ((o.timestamp : ℚ) ≤ (now : ℚ) - (windowMs : ℚ) / 2))).length : ℚ)) * (6/5) →
        (cityWide reference filtered windowMs now).2.trend = "increasing")
    ∧ ((((cityWide reference filtered windowMs now).1.filter (fun o =>
          decide ((now : ℚ) - (windowMs : ℚ) / 2 < (o.timestamp : ℚ)))).length : ℚ) ≤
        ((((cityWide reference filtered windowMs now).1.filter (fun o =>
          decide ((o.timestamp : ℚ) ≤ (now : ℚ) - (windowMs : ℚ) / 2))).length : ℚ)) * (6/5) →
        (((cityWide reference filtered windowMs now).1.filter (fun o =>
          decide ((now : ℚ) - (windowMs : ℚ) / 2 < (o.timestamp : ℚ)))).length : ℚ) <
        ((((cityWide reference filtered windowMs now).1.filter (fun o =>
          decide ((o.timestamp : ℚ) ≤ (now : ℚ) - (windowMs : ℚ) / 2))).length : ℚ)) * (4/5) →
        (cityWide reference filtered windowMs now).2.trend = "declining")
    ∧ ((((cityWide reference filtered windowMs now).1.filter (fun o =>
          decide ((now : ℚ) - (windowMs : ℚ) / 2 < (o.timestamp : ℚ)))).length : ℚ) ≤
        ((((cityWide reference filtered windowMs now).1.filter (fun o =>
          decide ((o.timestamp : ℚ) ≤ (now : ℚ) - (windowMs : ℚ) / 2))).length : ℚ)) * (6/5) →
        ((((cityWide reference filtered windowMs now).1.filter (fun o =>
          decide ((o.timestamp : ℚ) ≤ (now : ℚ) - (windowMs : ℚ) / 2))).length : ℚ)) * (4/5) ≤
        (((cityWide reference filtered windowMs now).1.filter (fun o =>
          decide ((now : ℚ) - (windowMs : ℚ) / 2 < (o.timestamp : ℚ)))).length : ℚ) →
        (cityWide reference filtered windowMs now).2.trend = "stable")
    ∧ (((cityWide reference filtered windowMs now).1.filter (fun o =>
          decide ((o.timestamp : ℚ) ≤ (now : ℚ) - (windowMs : ℚ) / 2))).length = 0 →
        0 < ((cityWide reference filtered windowMs now).1.filter (fun o =>
          decide ((now : ℚ) - (windowMs : ℚ) / 2 < (o.timestamp : ℚ)))).length →
        (cityWide reference filtered windowMs now).2.trend = "increasing") := by
  unfold cityWide getMatchingObservations calculateCityWideStats
  dsimp only
  refine ⟨?_, rfl, (List.card_toFinset _).symm, rfl, ?_, ?_, ?_, ?_⟩
  · intro o
    simp [List.mem_filter]
  · intro h
    rw [if_pos h]
  · intro h1 h2
    rw [if_neg (not_lt.mpr h1), if_pos h2]
  · intro h1 h2
    rw [if_neg (not_lt.mpr h1), if_neg (not_lt.mpr h2)]
  · intro h0 hpos
    simp only [h0, Nat.cast_zero, zero_mul]
    rw [if_pos (by exact_mod_cast hpos)]

/-- Witness for C3: a single matching observation inside the recent half
    window gives total 1 and an increasing trend. -/
theorem cityWide_spec_witness :
    (cityWide obsW [obsW] 86400000 0).2.trend = "increasing"
    ∧ (cityWide obsW [obsW] 86400000 0).2.total = 1 := by
  have h := cityWide_spec obsW [obsW] 86400000 0
  constructor
  · refine h.2.2.2.2.2.2.2 ?_ ?_
    · norm_num [cityWide, getMatchingObservations, obsW, List.filter]
    · norm_num [cityWide, getMatchingObservations, obsW, List.filter]
  · rw [h.2.1]
    norm_num [cityWide, getMatchingObservations, obsW, List.filter]

lemma atan2_zero_one : atan2 0 1 = 0 := by
  unfold atan2
  have h : (⟨1, 0⟩ : ℂ) = 1 := by
    apply Complex.ext <;> simp
  rw [h, Complex.arg_one]

lemma getDistance_self (lat lng : ℝ) : getDistance lat lng lat lng = 0 := by
  unfold getDistance
  simp only [sub_self, zero_mul, zero_div, Real.sin_zero, mul_zero, zero_add,
    add_zero, Real.sqrt_zero, sub_zero, Real.sqrt_one, atan2_zero_one]

lemma getDistance_comm (lat1 lng1 lat2 lng2 : ℝ) :
    getDistance lat1 lng1 lat2 lng2 = getDistance lat2 lng2 lat1 lng1 := by
  unfold getDistance
  have h1 : (lat1 - lat2) * Real.pi / 180 / 2 =
      -((lat2 - lat1) * Real.pi / 180 / 2) := by ring
  have h2 : (lng1 - lng2) * Real.pi / 180 / 2 =
      -((lng2 - lng1) * Real.pi / 180 / 2) := by ring
  simp only [h1, h2, Real.sin_neg]
  ring_nf

/-- C5 counterexample: the north pole written with two different longitudes
    gives two non-identical coordinate pairs at Haversine distance zero, so
    distance zero does not force identical points. -/
theorem getDistance_zero_at_distinct_points :
    getDistance 90 0 90 50 = 0 ∧ ¬((90 : ℝ) = 90 ∧ (0 : ℝ) = 50) := by
  constructor
  · unfold getDistance
    have hphi : (90 : ℝ) * Real.pi / 180 = Real.pi / 2 := by ring
    simp only [sub_self, zero_mul, zero_div, Real.sin_zero, hphi,
      Real.cos_pi_div_two, mul_zero, zero_add, add_zero,
      Real.sqrt_zero, sub_zero, Real.sqrt_one, atan2_zero_one]
  · rintro ⟨-, h⟩
    norm_num at h

/-- C5 amended: getDistance is symmetric in its two points, and the distance
    from any point to itself is zero (the converse direction, distance zero
    only for identical coordinate pairs, is refuted at the poles). -/
theorem getDistance_symm_self :
    (∀ lat1 lng1 lat2 lng2 : ℝ,
      getDistance lat1 lng1 lat2 lng2 = getDistance lat2 lng2 lat1 lng1)
    ∧ (∀ lat lng : ℝ, getDistance lat lng lat lng = 0) :=
  ⟨getDistance_comm, getDistance_self⟩

lemma sorted_head_le {l : List ℤ} (h : l.Pairwise (· ≤ ·)) :
    ∀ x ∈ l, l.head?.getD 0 ≤ x := by
  induction l with
  | nil => intro x hx; simp at hx
  | cons a t ih =>
    intro x hx
    rcases List.mem_cons.mp hx with rfl | hxt
    · simp
    · simpa using (List.pairwise_cons.mp h).1 x hxt

lemma getLast_getD_mem {l : List ℤ} (hne : l ≠ []) : l.getLast?.getD 0 ∈ l := by
  rw [List.getLast?_eq_getLast _ hne]
  exact List.getLast_mem hne

lemma head_getD_mem {l : List ℤ} (hne : l ≠ []) : l.head?.getD 0 ∈ l := by
  cases l with
  | nil => simp at hne
  | cons a t => simp

lemma sorted_le_getLast {l : List ℤ} (h : l.Pairwise (· ≤ ·)) :
    ∀ x ∈ l, x ≤ l.getLast?.getD 0 := by
  induction l with
  | nil => simp
  | cons a t ih =>
    intro x hx
    cases t with
    | nil =>
      simp at hx
      simp [hx]
    | cons b t2 =>
      rw [List.getLast?_cons_cons]
      have hp := List.pairwise_cons.mp h
      rcases List.mem_cons.mp hx with rfl | hxt
      · exact hp.1 _ (getLast_getD_mem (by simp))
      · exact ih hp.2 x hxt

lemma calculateLocalStats_none_iff (observations : List Observation)
    (timeWindowMs now : ℤ) :
    calculateLocalStats observations timeWindowMs now = none ↔
      observations = [] := by
  unfold calculateLocalStats
  split_ifs with h
  · simp [List.length_eq_zero.mp h]
  · simp only [List.length_eq_zero] at h
    simp [h]

lemma calculateLocalStats_some (observations : List Observation)
    (timeWindowMs now : ℤ) (hne : observations ≠ []) :
    ∃ st, calculateLocalStats observations timeWindowMs now = some st
      ∧ st.count = observations.length
      ∧ ∃ sorted : List ℤ,
          sorted = (observations.map (fun o => o.timestamp)).mergeSort
            (fun a b => decide (a ≤ b))
          ∧ st.timeSpanDays =
              ⌈((sorted.getLast?.getD 0 - sorted.head?.getD 0 : ℤ) : ℚ) /
                (1000 * 60 * 60 * 24)⌉ := by
  unfold calculateLocalStats
  rw [if_neg (fun h => hne (List.length_eq_zero.mp h))]
  exact ⟨_, rfl, rfl, _, rfl, rfl⟩

/-- C4: the local analyzer matches exactly the observations of the reference
    type within radiusMeters of the reference, returns null stats exactly when
    the match set is empty, and otherwise reports the match count and the
    ceiling of the timestamp span in days. -/
theorem localPattern_spec (reference : Observation) (filtered : List Observation)
    (radiusMeters : ℝ) (timeWindowMs now : ℤ) :
    (∀ o, o ∈ (localPattern reference filtered radiusMeters timeWindowMs now).1 ↔
        o ∈ filtered ∧ o.type = reference.type ∧
          getDistance (reference.lat : ℝ) (reference.lng : ℝ)
            (o.lat : ℝ) (o.lng : ℝ) ≤ radiusMeters)
    ∧ ((localPattern reference filtered radiusMeters timeWindowMs now).2 = none ↔
        (localPattern reference filtered radiusMeters timeWindowMs now).1 = [])
    ∧ (∀ st, (localPattern reference filtered radiusMeters timeWindowMs now).2 = some st →
        st.count = (localPattern reference filtered radiusMeters timeWindowMs now).1.length
        ∧ ∃ tmin tmax : ℤ,
            tmin ∈ (localPattern reference filtered radiusMeters timeWindowMs now).1.map
              (fun o => o.timestamp)
            ∧ tmax ∈ (localPattern reference filtered radiusMeters timeWindowMs now).1.map
              (fun o => o.timestamp)
            ∧ (∀ t ∈ (localPattern reference filtered radiusMeters timeWindowMs now).1.map
                (fun o => o.timestamp), tmin ≤ t ∧ t ≤ tmax)
            ∧ st.timeSpanDays = ⌈((tmax - tmin : ℤ) : ℚ) / 86400000⌉) := by
  refine ⟨?_, ?_, ?_⟩
  · intro o
    simp [localPattern, getNearbyObservations, List.mem_filter, and_assoc]
    exact fun _ => and_comm
  · exact calculateLocalStats_none_iff
      ((localPattern reference filtered radiusMeters timeWindowMs now).1)
      timeWindowMs now
  · intro st hst
    have hst' : calculateLocalStats
        ((localPattern reference filtered radiusMeters timeWindowMs now).1)
        timeWindowMs now = some st := hst
    have hne : (localPattern reference filtered radiusMeters timeWindowMs now).1 ≠ [] := by
      intro hc
      rw [(calculateLocalStats_none_iff _ timeWindowMs now).mpr hc] at hst'
      exact Option.noConfusion hst'
    obtain ⟨st2, hst2, hcount, sorted, hsdef, hdays⟩ :=
      calculateLocalStats_some _ timeWindowMs now hne
    have hst2' : st2 = st := by
      rw [hst2] at hst'
      exact Option.some.inj hst'
    subst hst2'
    refine ⟨hcount, ?_⟩
    have hperm : sorted.Perm
        (((localPattern reference filtered radiusMeters timeWindowMs now).1).map
          (fun o => o.timestamp)) := by
      rw [hsdef]
      exact List.mergeSort_perm _ _
    have hpair : sorted.Pairwise (fun a b : ℤ => a ≤ b) := by
      rw [hsdef]
      have h1 := @List.sorted_mergeSort ℤ (fun a b => decide (a ≤ b))
        (fun a b c hab hbc =>
          decide_eq_true (le_trans (of_decide_eq_true hab) (of_decide_eq_true hbc)))
        (fun a b => by
          simp only [Bool.or_eq_true, decide_eq_true_eq]
          exact le_total a b)
        (((localPattern reference filtered radiusMeters timeWindowMs now).1).map
          (fun o => o.timestamp))
      exact h1.imp (fun h => of_decide_eq_true h)
    have hts_ne : ((localPattern reference filtered radiusMeters timeWindowMs now).1).map
        (fun o => o.timestamp) ≠ [] := by
      simpa [List.map_eq_nil_iff] using hne
    have hs_ne : sorted ≠ [] := by
      intro hc
      rw [hc] at hperm
      exact hts_ne hperm.symm.eq_nil
    refine ⟨sorted.head?.getD 0, sorted.getLast?.getD 0,
      hperm.mem_iff.mp (head_getD_mem hs_ne),
      hperm.mem_iff.mp (getLast_getD_mem hs_ne), ?_, ?_⟩
    · intro t ht
      have hts : t ∈ sorted := hperm.mem_iff.mpr ht
      exact ⟨sorted_head_le hpair t hts, sorted_le_getLast hpair t hts⟩
    · rw [hdays]
      norm_num

/-- Witness for C4: a reference observation alone in the corpus is within any
    positive radius of itself, so the stats are non-null with count 1 and a
    zero-day span. -/
theorem localPattern_spec_witness :
    (localPattern obsW [obsW] (200 : ℝ) 86400000 0).1 = [obsW]
    ∧ (localPattern obsW [obsW] (200 : ℝ) 86400000 0).2 = some ⟨1, 0, "increasing"⟩
    ∧ LocalStats.count ⟨1, 0, "increasing"⟩ =
        (localPattern obsW [obsW] (200 : ℝ) 86400000 0).1.length := by
  have h1 : (localPattern obsW [obsW] (200 : ℝ) 86400000 0).1 = [obsW] := by
    unfold localPattern getNearbyObservations
    norm_num [List.filter, getDistance_self]
  have h2 : (localPattern obsW [obsW] (200 : ℝ) 86400000 0).2 =
      some ⟨1, 0, "increasing"⟩ := by
    rw [show (localPattern obsW [obsW] (200 : ℝ) 86400000 0).2 =
        calculateLocalStats ((localPattern obsW [obsW] (200 : ℝ) 86400000 0).1)
          86400000 0 from rfl, h1]
    norm_num [calculateLocalStats, obsW, List.filter]
  exact ⟨h1, h2,
    ((localPattern_spec obsW [obsW] 200 86400000 0).2.2 ⟨1, 0, "increasing"⟩ h2).1⟩
